import Mathlib

/-!
Shallow embedding of the Foodgram recipe backend core: the relation store
(Favorite, ShoppingCart, UserSubscriptions), the short-link generator, the
per-viewer flag computation, and the shopping-list aggregation, translated
from backend/recipes/models.py, backend/users/models.py, backend/api/views.py,
backend/api/serializers.py and backend/api/mixins.py.

Database rows are modelled as lists; integer primary keys as Nat.  Each view
action becomes a function from the database state (plus request data) to a
result paired with the successor state.
-/

namespace Foodgram

/-- An Ingredient row: name plus measurement unit (unique together). -/
structure Ingredient where
  name : String
  measurement_unit : String
deriving Repr, DecidableEq

/-- An IngredientRecipe line for one recipe: the ingredient and its amount. -/
structure IngredientLine where
  ingredient : Ingredient
  amount : Nat
deriving Repr, DecidableEq

/-- A Recipe row, with its IngredientRecipe lines inlined. -/
structure Recipe where
  id : Nat
  name : String
  cooking_time : Nat
  ingredient_lines : List IngredientLine
deriving Repr, DecidableEq

/-- The database state: user ids, recipes, and the three relation tables.
Favorite and ShoppingCart rows are (user id, recipe id) pairs; subscription
rows are (subscriber id, subscribed_to id) pairs.  The short-link table holds
(recipe id, token) pairs (RecipeShortLinks). -/
structure Db where
  users : List Nat
  recipes : List Recipe
  favorites : List (Nat × Nat)
  shopping_cart : List (Nat × Nat)
  subscriptions : List (Nat × Nat)
  short_links : List (Nat × String)
deriving Repr, DecidableEq

/-- Lookup of a recipe by primary key (get_object_or_404(Recipe, pk=pk)). -/
def findRecipe (db : Db) (pk : Nat) : Option Recipe :=
  db.recipes.find? (fun r => r.id == pk)

/-- Outcome of an add-style view action. fieldError is a serializer
validation failure on field lookup, before any uniqueness check. -/
inductive AddResult
  | created
  | alreadyExists
  | notFound404
  | selfReference
  | fieldError
deriving Repr, DecidableEq

/-- Outcome of a delete-style view action. -/
inductive RemoveResult
  | removed (count : Nat)
  | notFound404
  | notFoundPair
deriving Repr, DecidableEq

/-- RecipeViewset.shopping_cart (POST): 404 if the recipe is missing, then
ShoppingCart.objects.get_or_create(user, recipe); a pre-existing pair answers
400 (already in cart), otherwise the row is inserted. -/
def shopping_cart (db : Db) (uid pk : Nat) : AddResult × Db :=
  match findRecipe db pk with
  | none => (.notFound404, db)
  | some _ =>
    if (uid, pk) ∈ db.shopping_cart then (.alreadyExists, db)
    else (.created, { db with shopping_cart := db.shopping_cart ++ [(uid, pk)] })

/-- RecipeViewset.favorites (POST): same shape against the Favorite table. -/
def favorites (db : Db) (uid pk : Nat) : AddResult × Db :=
  match findRecipe db pk with
  | none => (.notFound404, db)
  | some _ =>
    if (uid, pk) ∈ db.favorites then (.alreadyExists, db)
    else (.created, { db with favorites := db.favorites ++ [(uid, pk)] })

/-- UserViewset.subscriptions (POST): 404 if the target user is missing, 400
if the requester targets themselves; otherwise UserSubscribeSerializer
validation runs, and since its Meta excludes the subscriber and subscribed_to
fields that its UniqueTogetherValidator is declared over, the validator's
field lookup fails for every request (KeyError or required-field error,
depending on the framework version) before any uniqueness check, so no
subscription row is ever written by this endpoint. -/
def subscriptions (db : Db) (uid target : Nat) : AddResult × Db :=
  if target ∈ db.users then
    if uid == target then (.selfReference, db)
    else (.fieldError, db)
  else (.notFound404, db)

/-- RecipeViewset.delete_from_shopping_cart: 404 if the recipe is missing,
then user.shopping_cart.filter(recipe=recipe).delete(); zero deleted rows
answer 400, otherwise the matching rows are removed and counted. -/
def delete_from_shopping_cart (db : Db) (uid pk : Nat) : RemoveResult × Db :=
  match findRecipe db pk with
  | none => (.notFound404, db)
  | some _ =>
    let deleted := db.shopping_cart.count (uid, pk)
    if deleted = 0 then (.notFoundPair, db)
    else
      (.removed deleted,
        { db with shopping_cart := db.shopping_cart.filter (fun p => !(p == (uid, pk))) })

/-- RecipeViewset.delete_favorite: same shape against the Favorite table. -/
def delete_favorite (db : Db) (uid pk : Nat) : RemoveResult × Db :=
  match findRecipe db pk with
  | none => (.notFound404, db)
  | some _ =>
    let deleted := db.favorites.count (uid, pk)
    if deleted = 0 then (.notFoundPair, db)
    else
      (.removed deleted,
        { db with favorites := db.favorites.filter (fun p => !(p == (uid, pk))) })

/-- UserViewset.delete_subscription: 404 if the target user is missing, then
UserSubscriptions.objects.filter(subscriber, subscribed_to).delete(); zero
deleted rows answer 400. -/
def delete_subscription (db : Db) (uid target : Nat) : RemoveResult × Db :=
  if target ∈ db.users then
    let deleted := db.subscriptions.count (uid, target)
    if deleted = 0 then (.notFoundPair, db)
    else
      (.removed deleted,
        { db with subscriptions := db.subscriptions.filter (fun p => !(p == (uid, target))) })
  else (.notFound404, db)

/-- RecipeShortLinks.generate_short_link. The source draws fresh UUID-derived
candidates in an unbounded while-loop until one is not already used. The
candidate stream abstracts the UUID source; the fuel argument bounds how many
draws are observed: the source itself has no bound, so `none` means the loop
is still running after `fuel` draws. -/
def generate_short_link (taken : String → Bool) (cands : Nat → String) : Nat → Option String
  | 0 => none
  | fuel + 1 =>
    if taken (cands 0) then generate_short_link taken (fun i => cands (i + 1)) fuel
    else some (cands 0)

/-- RecipeShortLinks.objects.filter(short_link=s).exists(). -/
def token_taken (db : Db) (s : String) : Bool :=
  db.short_links.any (fun p => p.2 == s)

/-- RecipeShortLinks.get_or_create_short_link: return the existing row's token
unchanged, or generate a fresh token and persist the new row. -/
def get_or_create_short_link (db : Db) (recipe_id : Nat) (cands : Nat → String)
    (fuel : Nat) : Option (String × Db) :=
  match db.short_links.find? (fun p => p.1 == recipe_id) with
  | some p => some (p.2, db)
  | none =>
    match generate_short_link (token_taken db) cands fuel with
    | none => none
    | some t => some (t, { db with short_links := db.short_links ++ [(recipe_id, t)] })

/-- A value handed to get_short_recipe_url. The function expects a
RecipeShortLinks instance, but RecipeViewset.get_recipe_short_link hands it a
Recipe; dynamic attribute access is modelled explicitly. -/
inductive ApiObj
  | recipeObj (r : Recipe)
  | shortLinkObj (recipe_id : Nat) (token : String)
deriving Repr, DecidableEq

/-- Python attribute access obj.short_link: only RecipeShortLinks has it. -/
def attr_short_link : ApiObj → Except String String
  | .shortLinkObj _ t => .ok t
  | .recipeObj _ => .error "AttributeError: Recipe has no attribute short_link"

/-- api.utils.get_short_recipe_url: reads short_link_instance.short_link. -/
def get_short_recipe_url (domain : String) (obj : ApiObj) : Except String String :=
  match attr_short_link obj with
  | .ok t => .ok ("http://" ++ domain ++ "/s/" ++ t)
  | .error e => .error e

/-- RecipeViewset.get_recipe_short_link: get_object_or_404(Recipe, pk=pk),
then get_short_recipe_url(request, recipe) on the Recipe object itself. -/
def get_recipe_short_link (db : Db) (domain : String) (pk : Nat) : Except String String :=
  match findRecipe db pk with
  | none => .error "404: recipe not found"
  | some r => get_short_recipe_url domain (.recipeObj r)

/-- The requesting identity: anonymous or an authenticated user id. -/
inductive Viewer
  | anonymous
  | user (uid : Nat)
deriving Repr, DecidableEq

/-- RecipeViewset.get_queryset: the favorites sub-queryset is the viewer's
Favorite rows for the outer recipe; for an anonymous request it is the empty
queryset (User.objects.none()). -/
def favorites_queryset (db : Db) (v : Viewer) (pk : Nat) : List (Nat × Nat) :=
  match v with
  | .anonymous => []
  | .user uid => db.favorites.filter (fun p => p.1 == uid && p.2 == pk)

/-- RecipeViewset.get_queryset: the shopping-cart sub-queryset. -/
def shopping_cart_queryset (db : Db) (v : Viewer) (pk : Nat) : List (Nat × Nat) :=
  match v with
  | .anonymous => []
  | .user uid => db.shopping_cart.filter (fun p => p.1 == uid && p.2 == pk)

/-- A recipe as produced by get_queryset, carrying the two Exists flags. -/
structure AnnotatedRecipe where
  recipe : Recipe
  is_favorited : Bool
  is_in_shopping_cart : Bool
deriving Repr, DecidableEq

/-- RecipeViewset.get_queryset: every recipe annotated with the Exists(...) of
the two per-viewer sub-querysets. -/
def get_queryset (db : Db) (v : Viewer) : List AnnotatedRecipe :=
  db.recipes.map (fun r =>
    { recipe := r
      is_favorited := !(favorites_queryset db v r.id).isEmpty
      is_in_shopping_cart := !(shopping_cart_queryset db v r.id).isEmpty })

/-- RecipeSerializer.get_is_favorited: obj.favorited_by_users.exists() — every
Favorite row for the recipe counts; the requesting user is never consulted. -/
def get_is_favorited (db : Db) (pk : Nat) : Bool :=
  !(db.favorites.filter (fun p => p.2 == pk)).isEmpty

/-- RecipeSerializer.get_is_in_shopping_cart: false for an unauthenticated
request, else existence of the (user, recipe) row in the ShoppingCart table. -/
def get_is_in_shopping_cart (db : Db) (v : Viewer) (pk : Nat) : Bool :=
  match v with
  | .anonymous => false
  | .user uid => !(db.shopping_cart.filter (fun p => p.2 == pk && p.1 == uid)).isEmpty

/-- Lexicographic strict comparison of character lists by code point. -/
def charListLtB : List Char → List Char → Bool
  | [], [] => false
  | [], _ :: _ => true
  | _ :: _, [] => false
  | a :: as, b :: bs =>
    if a.toNat < b.toNat then true
    else if b.toNat < a.toNat then false
    else charListLtB as bs

/-- Lexicographic strict order on strings, as the database collation orders
ASCII names. -/
def strLtB (a b : String) : Bool :=
  charListLtB a.data b.data

/-- Reflexive closure of the lexicographic order on strings. -/
def strLeB (a b : String) : Bool :=
  strLtB a b || (a == b)

/-- Stable insertion into a list of ingredients sorted by name. -/
def insertByName (i : Ingredient) : List Ingredient → List Ingredient
  | [] => [i]
  | j :: rest => if strLeB i.name j.name then i :: j :: rest else j :: insertByName i rest

/-- Ordering applied by recipe.ingredients.all() (Ingredient.Meta orders by
name). -/
def sortIngredientsByName (l : List Ingredient) : List Ingredient :=
  l.foldr insertByName []

/-- recipe.ingredients.all(): the ingredient of each IngredientRecipe line of
the recipe, ordered by ingredient name. -/
def ingredients_all (r : Recipe) : List Ingredient :=
  sortIngredientsByName (r.ingredient_lines.map (fun l => l.ingredient))

/-- collections.Counter bump c[k] += 1 with insertion-ordered keys. -/
def counterAdd (c : List (String × Nat)) (k : String) : List (String × Nat) :=
  match c with
  | [] => [(k, 1)]
  | (k', n) :: rest => if k' = k then (k', n + 1) :: rest else (k', n) :: counterAdd rest k

/-- Stable insertion of a nat into an ascending list. -/
def insertNatLe (x : Nat) : List Nat → List Nat
  | [] => [x]
  | y :: rest => if x ≤ y then x :: y :: rest else y :: insertNatLe x rest

/-- Ascending sort of nat keys. -/
def sortNatLe (l : List Nat) : List Nat :=
  l.foldr insertNatLe []

/-- user.shopping_cart.all(): the user's cart rows in ShoppingCart.Meta order
(user, recipe), resolved to their recipes. -/
def cart_recipes (db : Db) (uid : Nat) : List Recipe :=
  (sortNatLe ((db.shopping_cart.filter (fun p => p.1 == uid)).map Prod.snd)).filterMap
    (findRecipe db)

/-- The structured content of the generated shopping list. -/
structure ShoppingListDoc where
  recipes : List (String × Nat)
  ingredients : List (String × Nat)
deriving Repr, DecidableEq

/-- ShoppingListGeneratorMixin._get_shopping_cart_text, structured: one
Counter bump per ingredient occurrence across the cart's recipes, keyed by
ingredient name alone; recipe entries carry name and cooking time; the
ingredient section is emitted in Counter insertion order. -/
def get_shopping_cart_text (db : Db) (uid : Nat) : ShoppingListDoc :=
  let recipes := cart_recipes db uid
  let counter :=
    recipes.foldl (fun c r => (ingredients_all r).foldl (fun c' i => counterAdd c' i.name) c) []
  { recipes := recipes.map (fun r => (r.name, r.cooking_time))
    ingredients := counter }

/-- Modelled from the spec: the ingredient side of build_shopping_list, which
is absent from the source — gather every ingredient line of every cart recipe,
group by the (name, measurement_unit) key, sum amount within each group. -/
def specAccum (acc : List (String × String × Nat)) (l : IngredientLine) :
    List (String × String × Nat) :=
  match acc with
  | [] => [(l.ingredient.name, l.ingredient.measurement_unit, l.amount)]
  | (n, u, a) :: rest =>
    if n == l.ingredient.name && u == l.ingredient.measurement_unit then
      (n, u, a + l.amount) :: rest
    else (n, u, a) :: specAccum rest l

/-- Modelled from the spec: ordering of the aggregated ingredient list,
ascending by name with ties broken by unit. -/
def specKeyLe (x y : String × String × Nat) : Bool :=
  strLtB x.1 y.1 || (x.1 == y.1 && strLeB x.2.1 y.2.1)

/-- Stable insertion for the spec ordering. -/
def insertSpecKey (x : String × String × Nat) :
    List (String × String × Nat) → List (String × String × Nat)
  | [] => [x]
  | y :: rest => if specKeyLe x y then x :: y :: rest else y :: insertSpecKey x rest

/-- Modelled from the spec: build_shopping_list(user).ingredients — the source
has no amount-summing aggregation, so the contract of spec section 4.4 is
embedded from its words for comparison with get_shopping_cart_text. -/
def spec_build_shopping_list_ingredients (db : Db) (uid : Nat) :
    List (String × String × Nat) :=
  ((((cart_recipes db uid).map Recipe.ingredient_lines).flatten).foldl specAccum []).foldr
    insertSpecKey []

/-- The Salt ingredient of the spec scenario. -/
def salt : Ingredient := ⟨"Salt", "g"⟩

/-- The Flour ingredient of the spec scenario. -/
def flour : Ingredient := ⟨"Flour", "kg"⟩

/-- The Sugar ingredient of the spec scenario. -/
def sugar : Ingredient := ⟨"Sugar", "g"⟩

/-- Recipe A of the spec scenario: Salt/g/5, Flour/kg/1. -/
def recipeA : Recipe := ⟨1, "A", 10, [⟨salt, 5⟩, ⟨flour, 1⟩]⟩

/-- Recipe B of the spec scenario: Salt/g/3, Sugar/g/10. -/
def recipeB : Recipe := ⟨2, "B", 20, [⟨salt, 3⟩, ⟨sugar, 10⟩]⟩

/-- The cart scenario of the spec: user 1 holds recipes A and B in the cart. -/
def dbCart : Db := ⟨[1], [recipeA, recipeB], [], [(1, 1), (1, 2)], [], []⟩

/-- A state where only user 2 has favorited recipe 1; user 1 has nothing. -/
def dbFav : Db := ⟨[1, 2], [recipeA], [(2, 1)], [], [], []⟩

/-- A state holding favorite (1,1), cart row (1,1) and subscription (1,2),
with user 3 subscribed to nobody. -/
def dbPairs : Db := ⟨[1, 2, 3], [recipeA], [(1, 1)], [(1, 1)], [(1, 2)], []⟩

/-- A state with no short links. -/
def dbEmpty : Db := ⟨[1], [recipeA], [], [], [], []⟩

/-- dbEmpty after recipe 7 received the token "tok". -/
def dbLinked : Db := { dbEmpty with short_links := [(7, "tok")] }

/-- The write-time invariant of UserSubscriptions: no self-subscription row. -/
def no_self_subscription (db : Db) : Prop :=
  ∀ p ∈ db.subscriptions, p.1 ≠ p.2

/-- The unique constraint on RecipeShortLinks.short_link: all stored tokens
are pairwise distinct. -/
def tokens_distinct (db : Db) : Prop :=
  (db.short_links.map Prod.snd).Nodup

/-- States whose short-link table is reachable by the core: start from an
empty table, run operations that leave the table untouched, or run
get_or_create_short_link. -/
inductive LinksReachable : Db → Prop
  | empty (db : Db) (h : db.short_links = []) : LinksReachable db
  | frame (db db' : Db) (hdb : LinksReachable db)
      (h : db'.short_links = db.short_links) : LinksReachable db'
  | create (db db' : Db) (rid : Nat) (cands : Nat → String) (fuel : Nat)
      (t : String) (hdb : LinksReachable db)
      (h : get_or_create_short_link db rid cands fuel = some (t, db')) :
      LinksReachable db'

/-- The termination property the spec asserts of the generation loop: some
fixed attempt bound suffices for every token-table state and every candidate
stream. -/
def claim_c4_statement : Prop :=
  ∃ N : Nat, ∀ (taken : String → Bool) (cands : Nat → String),
    (generate_short_link taken cands N).isSome = true

/-- When every token is already used, the generation loop never finishes,
whatever number of draws is observed. -/
theorem generate_short_link_all_taken (cands : Nat → String) :
    ∀ fuel : Nat, generate_short_link (fun _ => true) cands fuel = none := by
  intro fuel
  induction fuel generalizing cands with
  | zero => rfl
  | succ n ih => simp [generate_short_link, ih]

/-- A token the loop returns is never one that was already used. -/
theorem generate_short_link_fresh (taken : String → Bool) (cands : Nat → String)
    (fuel : Nat) (t : String)
    (h : generate_short_link taken cands fuel = some t) : taken t = false := by
  induction fuel generalizing cands with
  | zero => simp [generate_short_link] at h
  | succ n ih =>
    unfold generate_short_link at h
    split at h
    next => exact ih _ h
    next hcond =>
      injection h with h'
      subst h'
      simpa using hcond

/-- C4 counterexample: generate_short_link is an unbounded while-loop with no
attempt cap and no TokenExhaustion outcome; no fixed attempt bound makes it
finish on every token-table state, refuting the claimed bounded retry. -/
theorem c4_counterexample_unbounded_loop : claim_c4_statement ↔ False := by
  constructor
  · rintro ⟨N, h⟩
    have h' := h (fun _ => true) (fun _ => "x")
    rw [generate_short_link_all_taken (fun _ => "x") N] at h'
    simp at h'
  · intro h
    exact h.elim

/-- C4 amended: the generation loop retries without any attempt cap: it only
ever returns a candidate that is not already used, it runs forever when every
candidate collides (there is no TokenExhaustion error), and it returns the
first candidate immediately when that candidate is fresh. -/
theorem c4_amended_unbounded_retry (taken : String → Bool) (cands : Nat → String)
    (fuel : Nat) :
    (∀ t, generate_short_link taken cands fuel = some t → taken t = false) ∧
    generate_short_link (fun _ => true) cands fuel = none ∧
    (taken (cands 0) = false →
      generate_short_link taken cands (fuel + 1) = some (cands 0)) := by
  refine ⟨fun t h => generate_short_link_fresh taken cands fuel t h,
    generate_short_link_all_taken cands fuel, fun h => ?_⟩
  simp [generate_short_link, h]

/-- Witness for the amended C4 statement at a concrete fresh candidate. -/
theorem c4_amended_unbounded_retry_witness :
    generate_short_link (fun _ => false) (fun _ => "t") 1 = some "t" :=
  (c4_amended_unbounded_retry (fun _ => false) (fun _ => "t") 0).2.2 rfl

/-- C5: for every stored recipe, the get-link action hands the Recipe object
itself to get_short_recipe_url, whose short_link attribute access fails, so
the endpoint answers with an attribute error instead of a token. -/
theorem c5_get_link_attribute_error (db : Db) (domain : String) (pk : Nat)
    (r : Recipe) (h : findRecipe db pk = some r) :
    get_recipe_short_link db domain pk =
      .error "AttributeError: Recipe has no attribute short_link" := by
  unfold get_recipe_short_link
  rw [h]
  rfl

/-- Witness for C5: the attribute error on the concrete cart database. -/
theorem c5_get_link_attribute_error_witness :
    get_recipe_short_link dbCart "example.org" 1 =
      .error "AttributeError: Recipe has no attribute short_link" :=
  c5_get_link_attribute_error dbCart "example.org" 1 recipeA (by rfl)

/-- The subscribe action never writes a self-referencing row: every branch of
the endpoint leaves the relation untouched. -/
theorem subscriptions_preserves_no_self (db : Db) (u t : Nat)
    (hinv : no_self_subscription db) :
    no_self_subscription (subscriptions db u t).2 := by
  unfold subscriptions
  split_ifs with h1 h2
  · exact hinv
  · exact hinv
  · exact hinv

/-- The unsubscribe action never writes a self-referencing row. -/
theorem delete_subscription_preserves_no_self (db : Db) (u t : Nat)
    (hinv : no_self_subscription db) :
    no_self_subscription (delete_subscription db u t).2 := by
  simp only [delete_subscription]
  split_ifs with h1 h2
  · exact hinv
  · intro p hp
    exact hinv p (List.mem_of_mem_filter hp)
  · exact hinv

/-- C6: subscribing an existing user to themselves always fails with the
self-reference error and leaves the subscription relation unchanged, and both
subscription write operations preserve the invariant that no stored pair is
self-referencing. -/
theorem c6_self_subscription_rejected (db : Db) (u t : Nat) (hu : u ∈ db.users) :
    subscriptions db u u = (.selfReference, db) ∧
    (no_self_subscription db → no_self_subscription (subscriptions db u t).2) ∧
    (no_self_subscription db → no_self_subscription (delete_subscription db u t).2) :=
  ⟨by simp [subscriptions, hu], subscriptions_preserves_no_self db u t,
    delete_subscription_preserves_no_self db u t⟩

/-- Witness for C6: user 1 subscribing to user 1 is rejected in dbPairs. -/
theorem c6_self_subscription_rejected_witness :
    subscriptions dbPairs 1 1 = (.selfReference, dbPairs) :=
  (c6_self_subscription_rejected dbPairs 1 1 (by decide)).1

/-- Appending a fresh element keeps a list duplicate-free. -/
theorem nodup_append_single {α : Type} (l : List α) (a : α)
    (hnd : l.Nodup) (ha : a ∉ l) : (l ++ [a]).Nodup := by
  rw [List.nodup_append]
  refine ⟨hnd, List.nodup_singleton a, ?_⟩
  intro b hb hb'
  rcases List.mem_singleton.mp hb' with rfl
  exact ha hb

/-- The cart add action never duplicates a (user, recipe) row. -/
theorem shopping_cart_nodup (db : Db) (u r : Nat) (hnd : db.shopping_cart.Nodup) :
    ((shopping_cart db u r).2).shopping_cart.Nodup := by
  unfold shopping_cart
  cases h : findRecipe db r with
  | none => exact hnd
  | some rec =>
    split_ifs with hmem
    · exact hnd
    · exact nodup_append_single _ _ hnd hmem

/-- The favorite add action never duplicates a (user, recipe) row. -/
theorem favorites_nodup (db : Db) (u r : Nat) (hnd : db.favorites.Nodup) :
    ((favorites db u r).2).favorites.Nodup := by
  unfold favorites
  cases h : findRecipe db r with
  | none => exact hnd
  | some rec =>
    split_ifs with hmem
    · exact hnd
    · exact nodup_append_single _ _ hnd hmem

/-- The subscribe action never duplicates a (subscriber, subscribed_to) row:
it never writes one at all. -/
theorem subscriptions_nodup (db : Db) (u t : Nat) (hnd : db.subscriptions.Nodup) :
    ((subscriptions db u t).2).subscriptions.Nodup := by
  unfold subscriptions
  split_ifs with h1 h2
  · exact hnd
  · exact hnd
  · exact hnd

/-- C7: for Favorite and ShoppingCart a duplicate add answers AlreadyExists,
distinct from created, and leaves the state unchanged, and adds never
duplicate a row; but for Subscription the endpoint answers the serializer
field error for every request — here both for the already-present pair (u, t)
and for the absent pair (u, t2) — never AlreadyExists, so a duplicate
subscribe is not distinguishable from a fresh one, refuting the claim for
that relation kind. -/
theorem c7_duplicate_add_field_error (db : Db) (u r t t2 : Nat) (rec : Recipe)
    (hr : findRecipe db r = some rec) (ht : t ∈ db.users) (ht2 : t2 ∈ db.users)
    (hc : (u, r) ∈ db.shopping_cart) (hf : (u, r) ∈ db.favorites)
    (hs : (u, t) ∈ db.subscriptions) (hs2 : (u, t2) ∉ db.subscriptions)
    (hne : u ≠ t) (hne2 : u ≠ t2) :
    shopping_cart db u r = (.alreadyExists, db) ∧
    favorites db u r = (.alreadyExists, db) ∧
    subscriptions db u t = (.fieldError, db) ∧
    subscriptions db u t2 = (.fieldError, db) ∧
    (AddResult.fieldError ≠ AddResult.alreadyExists) ∧
    (AddResult.alreadyExists ≠ AddResult.created) ∧
    (∀ u' r', db.shopping_cart.Nodup → ((shopping_cart db u' r').2).shopping_cart.Nodup) ∧
    (∀ u' r', db.favorites.Nodup → ((favorites db u' r').2).favorites.Nodup) ∧
    (∀ u' t', db.subscriptions.Nodup → ((subscriptions db u' t').2).subscriptions.Nodup) := by
  refine ⟨?_, ?_, ?_, ?_, by simp, by simp,
    fun u' r' h => shopping_cart_nodup db u' r' h,
    fun u' r' h => favorites_nodup db u' r' h,
    fun u' t' h => subscriptions_nodup db u' t' h⟩
  · unfold shopping_cart
    rw [hr]
    simp [hc]
  · unfold favorites
    rw [hr]
    simp [hf]
  · unfold subscriptions
    simp [ht, hne]
  · unfold subscriptions
    simp [ht2, hne2]

/-- Witness for C7: re-adding cart row (1,1) in dbPairs is rejected as
already present. -/
theorem c7_duplicate_add_field_error_witness :
    shopping_cart dbPairs 1 1 = (.alreadyExists, dbPairs) :=
  (c7_duplicate_add_field_error dbPairs 1 1 2 3 recipeA (by rfl) (by decide)
    (by decide) (by decide) (by decide) (by decide) (by decide) (by decide)
    (by decide)).1

/-- A member of a duplicate-free list occurs in it exactly once. -/
theorem count_eq_one_of_mem_nodup {α : Type} [BEq α] [LawfulBEq α] (l : List α)
    (a : α) (hnd : l.Nodup) (h : a ∈ l) : l.count a = 1 := by
  induction l with
  | nil => cases h
  | cons x xs ih =>
    rcases List.nodup_cons.mp hnd with ⟨hx, hxs⟩
    rcases List.mem_cons.mp h with rfl | hmem
    · rw [List.count_cons_self, List.count_eq_zero.mpr hx]
    · have hne : a ≠ x := fun hax => hx (hax ▸ hmem)
      rw [List.count_cons_of_ne hne, ih hxs hmem]

/-- On a duplicate-free list, dropping every copy of an element is the same
as erasing its single occurrence. -/
theorem filter_bne_eq_erase {α : Type} [BEq α] [LawfulBEq α] (a : α) :
    ∀ l : List α, l.Nodup → l.filter (fun x => !(x == a)) = l.erase a := by
  intro l
  induction l with
  | nil => intro _; rfl
  | cons x xs ih =>
    intro hnd
    rcases List.nodup_cons.mp hnd with ⟨hx, hxs⟩
    rw [List.filter_cons]
    by_cases hxa : x = a
    · subst hxa
      rw [List.erase_cons_head]
      simp only [beq_self_eq_true, Bool.not_true, Bool.false_eq_true, if_false]
      refine List.filter_eq_self.mpr ?_
      intro b hb
      simp only [Bool.not_eq_true', beq_eq_false_iff_ne, ne_eq]
      intro hba
      exact hx (hba ▸ hb)
    · have hcond : (!(x == a)) = true := by simp [hxa]
      rw [if_pos hcond, List.erase_cons_tail (by simp [hxa]), ih hxs]

/-- C8: for each relation kind, removing a pair that is absent fails with the
not-found outcome and leaves the state unchanged; removing a present pair on
a duplicate-free relation deletes exactly that one row and reports count 1. -/
theorem c8_remove_semantics (db : Db) (u r t : Nat) (rec : Recipe)
    (hr : findRecipe db r = some rec) (ht : t ∈ db.users) :
    ((u, r) ∉ db.shopping_cart → delete_from_shopping_cart db u r = (.notFoundPair, db)) ∧
    ((u, r) ∉ db.favorites → delete_favorite db u r = (.notFoundPair, db)) ∧
    ((u, t) ∉ db.subscriptions → delete_subscription db u t = (.notFoundPair, db)) ∧
    (db.shopping_cart.Nodup → (u, r) ∈ db.shopping_cart →
      delete_from_shopping_cart db u r =
        (.removed 1, { db with shopping_cart := db.shopping_cart.erase (u, r) })) ∧
    (db.favorites.Nodup → (u, r) ∈ db.favorites →
      delete_favorite db u r =
        (.removed 1, { db with favorites := db.favorites.erase (u, r) })) ∧
    (db.subscriptions.Nodup → (u, t) ∈ db.subscriptions →
      delete_subscription db u t =
        (.removed 1, { db with subscriptions := db.subscriptions.erase (u, t) })) := by
  refine ⟨?_, ?_, ?_, ?_, ?_, ?_⟩
  · intro hmem
    unfold delete_from_shopping_cart
    rw [hr]
    simp [List.count_eq_zero.mpr hmem]
  · intro hmem
    unfold delete_favorite
    rw [hr]
    simp [List.count_eq_zero.mpr hmem]
  · intro hmem
    unfold delete_subscription
    simp [ht, List.count_eq_zero.mpr hmem]
  · intro hnd hmem
    unfold delete_from_shopping_cart
    rw [hr]
    simp [count_eq_one_of_mem_nodup _ _ hnd hmem, filter_bne_eq_erase _ _ hnd]
  · intro hnd hmem
    unfold delete_favorite
    rw [hr]
    simp [count_eq_one_of_mem_nodup _ _ hnd hmem, filter_bne_eq_erase _ _ hnd]
  · intro hnd hmem
    unfold delete_subscription
    simp [ht, count_eq_one_of_mem_nodup _ _ hnd hmem, filter_bne_eq_erase _ _ hnd]

/-- Witness for C8: removing the absent cart pair (2,1) from dbPairs fails and
changes nothing. -/
theorem c8_remove_semantics_witness :
    delete_from_shopping_cart dbPairs 2 1 = (.notFoundPair, dbPairs) :=
  (c8_remove_semantics dbPairs 2 1 2 recipeA (by rfl) (by decide)).1 (by decide)

/-- A (user, recipe) filter keyed on both components is nonempty exactly when
the pair is a row of the relation list. -/
theorem pair_filter_isEmpty_eq_false (l : List (Nat × Nat)) (a b : Nat) :
    ((l.filter (fun p => p.1 == a && p.2 == b)).isEmpty = false) ↔ (a, b) ∈ l := by
  induction l with
  | nil => simp
  | cons x xs ih =>
    rw [List.filter_cons]
    by_cases hx : (x.1 == a && x.2 == b) = true
    · have hxab : x = (a, b) := by
        rcases x with ⟨x1, x2⟩
        simp only [Bool.and_eq_true, beq_iff_eq] at hx
        simp [hx.1, hx.2]
      subst hxab
      simp
    · rw [if_neg hx, ih]
      constructor
      · intro h
        exact List.mem_cons_of_mem x h
      · intro h
        rcases List.mem_cons.mp h with heq | h'
        · exact absurd (by simp [← heq]) hx
        · exact h'

/-- The same membership fact for the serializer's filter, which tests the
recipe component first. -/
theorem pair_filter_isEmpty_eq_false_flip (l : List (Nat × Nat)) (a b : Nat) :
    ((l.filter (fun p => p.2 == b && p.1 == a)).isEmpty = false) ↔ (a, b) ∈ l := by
  induction l with
  | nil => simp
  | cons x xs ih =>
    rw [List.filter_cons]
    by_cases hx : (x.2 == b && x.1 == a) = true
    · have hxab : x = (a, b) := by
        rcases x with ⟨x1, x2⟩
        simp only [Bool.and_eq_true, beq_iff_eq] at hx
        simp [hx.1, hx.2]
      subst hxab
      simp
    · rw [if_neg hx, ih]
      constructor
      · intro h
        exact List.mem_cons_of_mem x h
      · intro h
        rcases List.mem_cons.mp h with heq | h'
        · exact absurd (by simp [← heq]) hx
        · exact h'

/-- C2: the queryset-level Exists flags and the serializer-level cart flag are
honest per-user membership tests; but the is_favorited flag the serializer
actually emits ignores the viewer: in dbFav it reports true for viewer 1 even
though (1, 1) is not a Favorite row, influenced solely by user 2's row. -/
theorem c2_flag_membership (db : Db) (uid pk : Nat) :
    ((!(favorites_queryset db (.user uid) pk).isEmpty) = true ↔ (uid, pk) ∈ db.favorites) ∧
    ((!(shopping_cart_queryset db (.user uid) pk).isEmpty) = true
      ↔ (uid, pk) ∈ db.shopping_cart) ∧
    (get_is_in_shopping_cart db (.user uid) pk = true ↔ (uid, pk) ∈ db.shopping_cart) ∧
    (get_is_favorited dbFav 1 = true ∧ dbFav.favorites.contains (1, 1) = false) := by
  refine ⟨?_, ?_, ?_, by decide, by decide⟩
  · rw [Bool.not_eq_true']
    exact pair_filter_isEmpty_eq_false db.favorites uid pk
  · rw [Bool.not_eq_true']
    exact pair_filter_isEmpty_eq_false db.shopping_cart uid pk
  · rw [get_is_in_shopping_cart, Bool.not_eq_true']
    exact pair_filter_isEmpty_eq_false_flip db.shopping_cart uid pk

/-- C3: the queryset-level flags for an anonymous viewer are false on every
recipe, and the serializer-level cart flag is false for an anonymous request;
but the is_favorited flag the serializer actually emits is computed without
looking at the viewer at all, so in dbFav an anonymous request still reports
is_favorited = true for recipe 1, not the claimed false. -/
theorem c3_anonymous_flags (db : Db) (pk : Nat) :
    ((get_queryset db .anonymous).all
      (fun a => !a.is_favorited && !a.is_in_shopping_cart)) = true ∧
    get_is_in_shopping_cart db .anonymous pk = false ∧
    get_is_favorited dbFav 1 = true := by
  refine ⟨?_, rfl, by decide⟩
  simp [get_queryset, favorites_queryset, shopping_cart_queryset]

/-- C1: on the spec's cart scenario the source counts recipe occurrences per
ingredient name, emitting Flour 1, Salt 2, Sugar 1 with no units, instead of
the claimed amount sums grouped by (name, unit) — Flour/kg/1, Salt/g/8,
Sugar/g/10, as the spec-modelled aggregation yields; the Salt entry the code
produces is the occurrence count 2, not the summed amount 8. -/
theorem c1_cart_aggregation_counts_occurrences :
    (get_shopping_cart_text dbCart 1).ingredients
      = [("Flour", 1), ("Salt", 2), ("Sugar", 1)] ∧
    (get_shopping_cart_text dbCart 1).recipes = [("A", 10), ("B", 20)] ∧
    spec_build_shopping_list_ingredients dbCart 1
      = [("Flour", "kg", 1), ("Salt", "g", 8), ("Sugar", "g", 10)] ∧
    (2 : Nat) ≠ 8 := by
  exact ⟨by decide, by decide, by decide, by decide⟩

/-- Searching an appended list falls through to the right part when the left
part has no match. -/
theorem find?_append_none {α : Type} (p : α → Bool) (l1 l2 : List α)
    (h : l1.find? p = none) : (l1 ++ l2).find? p = l2.find? p := by
  induction l1 with
  | nil => rfl
  | cons x xs ih =>
    cases hx : p x with
    | true =>
      rw [List.find?_cons_of_pos _ hx] at h
      cases h
    | false =>
      rw [List.find?_cons_of_neg _ (by simp [hx])] at h
      rw [List.cons_append, List.find?_cons_of_neg _ (by simp [hx])]
      exact ih h

/-- C9: get_or_create_short_link is idempotent: a recipe that already has a
row gets that row's token back with the table unchanged, and a second call
right after any successful call returns the same token and leaves the state
produced by the first call untouched. -/
theorem c9_get_or_create_idempotent (db : Db) (rid : Nat)
    (cands cands' : Nat → String) (fuel fuel' : Nat) :
    (∀ q, db.short_links.find? (fun p => p.1 == rid) = some q →
      get_or_create_short_link db rid cands fuel = some (q.2, db)) ∧
    (∀ t db', get_or_create_short_link db rid cands fuel = some (t, db') →
      get_or_create_short_link db' rid cands' fuel' = some (t, db')) := by
  constructor
  · intro q hq
    unfold get_or_create_short_link
    rw [hq]
  · intro t db' h
    unfold get_or_create_short_link at h
    cases hfind : db.short_links.find? (fun p => p.1 == rid) with
    | some q =>
      rw [hfind] at h
      injection h with h'
      have h1 : q.2 = t := congrArg Prod.fst h'
      have h2 : db = db' := congrArg Prod.snd h'
      subst h1
      subst h2
      unfold get_or_create_short_link
      rw [hfind]
    | none =>
      rw [hfind] at h
      cases hgen : generate_short_link (token_taken db) cands fuel with
      | none =>
        rw [hgen] at h
        cases h
      | some tok =>
        rw [hgen] at h
        injection h with h'
        have h1 : tok = t := congrArg Prod.fst h'
        have h2 : ({ db with short_links := db.short_links ++ [(rid, tok)] } : Db) = db' :=
          congrArg Prod.snd h'
        subst h1
        subst h2
        unfold get_or_create_short_link
        rw [show ({ db with short_links := db.short_links ++ [(rid, tok)] } : Db).short_links
            = db.short_links ++ [(rid, tok)] from rfl]
        rw [find?_append_none _ _ _ hfind]
        rw [List.find?_cons_of_pos _ (by simp)]

/-- Witness for C9: a repeated call on the state holding token "tok" for
recipe 7 returns "tok" and changes nothing. -/
theorem c9_get_or_create_idempotent_witness :
    get_or_create_short_link dbLinked 7 (fun _ => "other") 3 = some ("tok", dbLinked) :=
  (c9_get_or_create_idempotent dbEmpty 7 (fun _ => "tok") (fun _ => "other") 1 3).2
    "tok" dbLinked (by rfl)

/-- A token the existence check reports unused is absent from the stored
token column. -/
theorem token_taken_false_not_mem (db : Db) (t : String)
    (h : token_taken db t = false) : t ∉ db.short_links.map Prod.snd := by
  intro hmem
  rcases List.mem_map.mp hmem with ⟨p, hp, hpt⟩
  have h2 : db.short_links.any (fun q => q.2 == t) = true :=
    List.any_eq_true.mpr ⟨p, hp, by simp [hpt]⟩
  rw [token_taken] at h
  rw [h] at h2
  cases h2

/-- Creating a short link can only add a token the table did not hold, so
pairwise distinctness of tokens is preserved. -/
theorem get_or_create_preserves_tokens (db db' : Db) (rid : Nat)
    (cands : Nat → String) (fuel : Nat) (t : String)
    (hd : tokens_distinct db)
    (h : get_or_create_short_link db rid cands fuel = some (t, db')) :
    tokens_distinct db' := by
  unfold get_or_create_short_link at h
  cases hfind : db.short_links.find? (fun p => p.1 == rid) with
  | some q =>
    rw [hfind] at h
    injection h with h'
    have h2 : db = db' := congrArg Prod.snd h'
    exact h2 ▸ hd
  | none =>
    rw [hfind] at h
    cases hgen : generate_short_link (token_taken db) cands fuel with
    | none =>
      rw [hgen] at h
      cases h
    | some tok =>
      rw [hgen] at h
      injection h with h'
      have h2 : ({ db with short_links := db.short_links ++ [(rid, tok)] } : Db) = db' :=
        congrArg Prod.snd h'
      subst h2
      unfold tokens_distinct
      rw [show ({ db with short_links := db.short_links ++ [(rid, tok)] } : Db).short_links
          = db.short_links ++ [(rid, tok)] from rfl]
      rw [List.map_append]
      have hfresh : token_taken db tok = false :=
        generate_short_link_fresh _ _ _ _ hgen
      exact nodup_append_single _ tok hd (token_taken_false_not_mem db tok hfresh)

/-- C10: in every state whose short-link table is reachable by the core,
stored tokens are pairwise distinct; in particular two rows for different
recipes always carry different tokens. -/
theorem c10_tokens_distinct (db : Db) (h : LinksReachable db) :
    tokens_distinct db ∧
    ∀ p q, p ∈ db.short_links → q ∈ db.short_links → p.1 ≠ q.1 → p.2 ≠ q.2 := by
  have hd : tokens_distinct db := by
    induction h with
    | empty db h =>
      unfold tokens_distinct
      rw [h]
      exact List.nodup_nil
    | frame db db' hdb h ih =>
      unfold tokens_distinct
      rw [h]
      exact ih
    | create db db' rid cands fuel t hdb h ih =>
      exact get_or_create_preserves_tokens db db' rid cands fuel t ih h
  refine ⟨hd, ?_⟩
  intro p q hp hq hne h2
  exact hne (congrArg Prod.fst (List.inj_on_of_nodup_map hd hp hq h2))

/-- Witness for C10 on the reachable state holding one token. -/
theorem c10_tokens_distinct_witness : tokens_distinct dbLinked :=
  (c10_tokens_distinct dbLinked
    (LinksReachable.create dbEmpty dbLinked 7 (fun _ => "tok") 1 "tok"
      (LinksReachable.empty dbEmpty rfl) (by rfl))).1

end Foodgram
